import Mathlib

/-!
Verification development for the virtual StackLink device simulator
(`server.py` and `stacklink_commands.py`).

The Python program is shallowly embedded: the mutable `StackLinkState`
object becomes the structure `SLState`, dictionaries with a fixed key set
become a key list together with a total function, in-place mutation becomes
explicit state passing, and Python exceptions raised inside a command
handler (which the dispatcher catches and reports as a 9999 internal
error) become an `Option` result, with the state at the point of the
raise retained.  Stop, lift and stack indices are Python ints, embedded
as `Int`.
-/

set_option maxRecDepth 20000

/-- Result triple of a command handler: (error code, message, extra lines). -/
abbrev CmdRet := Int × String × List String

/-- Zero-padded four digit rendering of a status code, as Python does with
the format specifier 04d for the non-negative codes the program uses. -/
def pad4 (code : Int) : String :=
  let n := code.toNat
  if n < 10 then "000" ++ toString n
  else if n < 100 then "00" ++ toString n
  else if n < 1000 then "0" ++ toString n
  else toString n

/-- Leading and trailing whitespace removed from a character list. -/
def trimList (l : List Char) : List Char :=
  ((l.dropWhile Char.isWhitespace).reverse.dropWhile Char.isWhitespace).reverse

/-- Python str.strip() with no arguments.  Implemented structurally on
the character list so that closed theorems evaluate inside the kernel. -/
def pyStrip (s : String) : String :=
  ⟨trimList s.data⟩

/-- Python str.upper(), for the ASCII command names the program uses. -/
def pyUpper (s : String) : String :=
  ⟨s.data.map Char.toUpper⟩

/-- Python str.lower(), for the ASCII strings the program uses. -/
def pyLower (s : String) : String :=
  ⟨s.data.map Char.toLower⟩

/-- Split of a character list at every occurrence of a separator,
keeping empty pieces, as Python str.split(sep) does. -/
def splitCharList (sep : Char) : List Char → List (List Char)
  | [] => [[]]
  | c :: t =>
    let r := splitCharList sep t
    if c == sep then [] :: r
    else
      match r with
      | h :: t2 => (c :: h) :: t2
      | [] => [[c]]

/-- Python s.split(sep) for a one-character separator. -/
def pySplit (sep : Char) (s : String) : List String :=
  (splitCharList sep s.data).map (fun l => ⟨l⟩)

/-- Value of a non-empty all-digit character run. -/
def digitsVal? (l : List Char) : Option Nat :=
  if l = [] then none
  else if l.all (fun c => c.isDigit) then
    some (l.foldl (fun acc c => acc * 10 + (c.toNat - 48)) 0)
  else none

/-- Python int(...) applied to a string: surrounding whitespace is
tolerated, an optional sign followed by digits is accepted, anything
else raises (returns none here). -/
def pyInt? (s : String) : Option Int :=
  match trimList s.data with
  | '-' :: rest => (digitsVal? rest).map (fun n => -(n : Int))
  | '+' :: rest => (digitsVal? rest).map (fun n => (n : Int))
  | l => (digitsVal? l).map (fun n => (n : Int))

/-- Python tuple unpacking a, b = args.split(","): succeeds exactly when
the split yields two parts. -/
def parse2 (args : String) : Option (String × String) :=
  match pySplit ',' args with
  | [a, b] => some (a, b)
  | _ => none

/-- Python tuple unpacking of three comma separated ints, as in
MOVEPLATE: [int(x.strip()) for x in args.split(",")] unpacked to three
names. -/
def parse3Int (args : String) : Option (Int × Int × Int) :=
  match (pySplit ',' args).map (fun x => pyInt? x) with
  | [some a, some b, some c] => some (a, b, c)
  | _ => none

/-- The list of integers Python range(a, b) iterates over. -/
def intRange (a b : Int) : List Int :=
  (List.range (b - a).toNat).map (fun (k : Nat) => a + (k : Int))

/-- Insertion of an integer into a sorted list, ascending. -/
def insertAsc (x : Int) : List Int → List Int
  | [] => [x]
  | y :: ys => if x ≤ y then x :: y :: ys else y :: insertAsc x ys

/-- Ascending sort of an integer list, as Python sorted() on int keys. -/
def sortAsc : List Int → List Int
  | [] => []
  | x :: xs => insertAsc x (sortAsc xs)

/-- Containment of one character list in another as a contiguous run,
the semantics of the Python substring operator. -/
def subRun : List Char → List Char → Bool
  | needle, hay =>
    let rec pre : List Char → List Char → Bool
      | [], _ => true
      | _ :: _, [] => false
      | a :: p, b :: l => a == b && pre p l
    let rec go : List Char → Bool
      | [] => pre needle []
      | c :: t => pre needle (c :: t) || go t
    go hay

/-- Case-insensitive substring test, Python query.lower() in c.lower(). -/
def hasSubCI (query c : String) : Bool :=
  subRun (pyLower query).data (pyLower c).data

/-- One position on the track (class TrackStop in server.py). -/
structure TrackStop where
  index : Int
  has_plate : Bool := false
  ignored : Bool := false
  plate_id : Option Int := none
deriving Repr, DecidableEq

/-- A plate magazine with finite capacity (class Stack in server.py). -/
structure Stack where
  index : Int
  capacity : Int := 30
  count : Int := 0
deriving Repr, DecidableEq

/-- Stack.dispense: remove a plate from the stack, if any remain. -/
def Stack.dispense (st : Stack) : Bool × Stack :=
  if st.count > 0 then (true, { st with count := st.count - 1 }) else (false, st)

/-- Stack.return_plate: add a plate to the stack, if not full. -/
def Stack.return_plate (st : Stack) : Bool × Stack :=
  if st.count < st.capacity then (true, { st with count := st.count + 1 }) else (false, st)

/-- Mutable state of the virtual StackLink (class StackLinkState).

Each Python dict whose key set is fixed after construction is embedded
as a key list (in insertion order) plus a total function; entries are
mutated but keys are never added or removed at runtime.  error_flags is
read through dict.get with default False, embedded as a total function,
and set_error_flag only writes keys already present. -/
structure SLState where
  stopKeys : List Int
  stops : Int → TrackStop
  liftKeys : List Int
  lift_map : Int → Int
  stackKeys : List Int
  stacksMap : Int → Stack
  default_stack_counts : Int → Int
  commands : List String
  version_info : String
  next_plate_id : Int
  errorFlagKeys : List String
  errorFlags : String → Bool

/-- Replace the stop stored at one index. -/
def SLState.updStop (s : SLState) (i : Int) (t : TrackStop) : SLState :=
  { s with stops := fun j => if j = i then t else s.stops j }

/-- Replace the stack stored at one index. -/
def SLState.updStack (s : SLState) (i : Int) (st : Stack) : SLState :=
  { s with stacksMap := fun j => if j = i then st else s.stacksMap j }

/-- The supported-command display list built in StackLinkState.__init__
and consulted only by LISTCOMMANDS. -/
def commandsInit : List String :=
  [ "AcknowledgeSend trackNumber",
    "AddCoordinates pointName, [constrained], [keyValueInput...]",
    "AddStop trackNumber, portName, positionName, [flags]",
    "CompoundShift trackNumber, direction, [times], [receive], [mask]",
    "DISPENSE trackNumber,liftNumber",
    "RETURN trackNumber,liftNumber",
    "MOVEPLATE trackNumber,sourceStop,destinationStop",
    "SHIFTPLATES trackNumber,direction",
    "SENDPLATE trackNumber,stopNumber",
    "RECEIVEPLATE trackNumber,stopNumber",
    "ACKNOWLEDGESEND trackNumber",
    "IGNORESTOP trackNumber,stopNumber,ignore",
    "IGNORESTOPRANGE trackNumber,startStop,endStop,ignore",
    "IGNOREALLSTOPS trackNumber,ignore",
    "GETSTOPSENSORS trackNumber",
    "HASPLATE trackNumber,stopNumber",
    "GETIGNORESTOP trackNumber,stopNumber",
    "GETIGNORESTOPS trackNumber",
    "LISTCOMMANDS [filter]",
    "VERSION" ]

/-- StackLinkState.__init__ with its two parameters (defaults 8 and 2):
stops 1..num_stops, lifts 1 and 2 at stops 3 and 4, stacks 1..num_stacks
of capacity 30 with stack 1 holding 15 plates, the four error flags all
false, and the plate id counter at 1. -/
def initState (num_stops : Int := 8) (num_stacks : Int := 2) : SLState where
  stopKeys := intRange 1 (num_stops + 1)
  stops := fun i => { index := i }
  liftKeys := [1, 2]
  lift_map := fun l => if l = 1 then 3 else if l = 2 then 4 else 0
  stackKeys := intRange 1 (num_stacks + 1)
  stacksMap := fun i => { index := i, capacity := 30, count := if i = 1 then 15 else 0 }
  default_stack_counts := fun i => if i = 1 then 15 else 0
  commands := commandsInit
  version_info := "StackLink Virtual 1.0.0 (mock)"
  next_plate_id := 1
  errorFlagKeys := ["dispense_failure", "lift_blocked", "stack_full", "movement_blocked"]
  errorFlags := fun _ => false

/-- StackLinkState.set_error_flag: update an error flag if it exists. -/
def SLState.set_error_flag (s : SLState) (name : String) (value : Bool) : SLState :=
  if s.errorFlagKeys.contains name then
    { s with errorFlags := fun n => if n = name then value else s.errorFlags n }
  else s

/-- StackLinkState.set_plate_presence: manually set plate presence at a
stop; returns false when the stop is invalid.  Only the boolean is
touched, plate_id bookkeeping is not. -/
def SLState.set_plate_presence (s : SLState) (stop : Int) (present : Bool) : Bool × SLState :=
  if s.stopKeys.contains stop then
    (true, s.updStop stop { s.stops stop with has_plate := present })
  else (false, s)

/-- StackLinkState.set_stack_count: clamp the supplied count into
[0, capacity]; returns false when the stack index is unknown. -/
def SLState.set_stack_count (s : SLState) (index : Int) (count : Int) : Bool × SLState :=
  if s.stackKeys.contains index then
    let stack := s.stacksMap index
    let c := if count < 0 then 0 else if count > stack.capacity then stack.capacity else count
    (true, s.updStack index { stack with count := c })
  else (false, s)

/-- StackLinkState.reset_state.  The optional stack_counts dict is an
association list; the empty list plays the role of Python None or an
empty dict, both of which are falsy in the condition guarding the
override.  Every stop is cleared, every stack is reset to the override
or its captured default clamped into [0, capacity], the existing error
flag keys are zeroed and the plate id counter returns to 1. -/
def SLState.reset_state (s : SLState) (stack_counts : List (Int × Int) := []) : SLState :=
  { s with
    stops := fun i =>
      if s.stopKeys.contains i then
        { s.stops i with has_plate := false, plate_id := none, ignored := false }
      else s.stops i
    stacksMap := fun i =>
      if s.stackKeys.contains i then
        let stack := s.stacksMap i
        let c0 := if stack_counts ≠ [] ∧ (List.lookup i stack_counts).isSome
                  then (List.lookup i stack_counts).getD 0
                  else s.default_stack_counts i
        let c := if c0 < 0 then 0 else if c0 > stack.capacity then stack.capacity else c0
        { stack with count := c }
      else s.stacksMap i
    errorFlags := fun n => if s.errorFlagKeys.contains n then false else s.errorFlags n
    next_plate_id := 1 }

/-- StackLinkState.stops_status_string: comma separated stop statuses in
ascending index order. -/
def SLState.stops_status_string (s : SLState) : String :=
  String.intercalate ", " ((sortAsc s.stopKeys).map (fun i =>
    toString i ++ ":" ++ (if (s.stops i).has_plate then "Object" else "Empty")))

/-- StackLinkState.ignored_status_string: comma separated ignored stop
indices in dict insertion order, or None. -/
def SLState.ignored_status_string (s : SLState) : String :=
  let ignored := (s.stopKeys.filter (fun i => (s.stops i).ignored)).map toString
  if ignored = [] then "None" else String.intercalate "," ignored

/-- Path scanned by MOVEPLATE in server.py: range(source+1, dest+1) when
moving forward, range(dest, source) when moving backward. -/
def pathList (source dest : Int) : List Int :=
  if dest > source then intRange (source + 1) (dest + 1) else intRange dest source

/-- StackLinkState.cmd_dispense after argument parsing.  The lift index
has been produced by int(); the stop object lookup stops[stop_id] raises
KeyError when the mapped stop is unknown, embedded as a none result. -/
def SLState.dispenseCore (s : SLState) (lift : Int) : Option CmdRet × SLState :=
  if !s.liftKeys.contains lift then (some (1, "Unknown lift", []), s)
  else if !s.stopKeys.contains (s.lift_map lift) then (none, s)
  else
    let stop_id := s.lift_map lift
    let stop := s.stops stop_id
    if s.errorFlags "lift_blocked" then (some (2001, "Cannot dispense; lift is blocked", []), s)
    else if s.errorFlags "dispense_failure" then (some (2000, "No object was dispensed", []), s)
    else if stop.has_plate then (some (2001, "Cannot dispense; lift is blocked", []), s)
    else if !s.stackKeys.contains lift then (some (2000, "No object was dispensed", []), s)
    else
      let r := (s.stacksMap lift).dispense
      if !r.1 then (some (2000, "No object was dispensed", []), s.updStack lift r.2)
      else
        let s1 := s.updStack lift r.2
        let pid := s1.next_plate_id
        let s2 := { s1 with next_plate_id := pid + 1 }
        (some (0, "Success", []),
          s2.updStop stop_id { stop with has_plate := true, plate_id := some pid })

/-- StackLinkState.cmd_return after argument parsing.  When the lift has
no stack, Python raises AttributeError on stack.return_plate only after
the plate has already been removed from the stop; the none result keeps
that partially mutated state. -/
def SLState.returnCore (s : SLState) (lift : Int) : Option CmdRet × SLState :=
  if !s.liftKeys.contains lift then (some (1, "Unknown lift", []), s)
  else if !s.stopKeys.contains (s.lift_map lift) then (none, s)
  else
    let stop_id := s.lift_map lift
    let stop := s.stops stop_id
    if s.errorFlags "lift_blocked" then (some (2001, "Cannot dispense; lift is blocked", []), s)
    else if s.errorFlags "stack_full" then (some (2003, "Stack full", []), s)
    else if !stop.has_plate then (some (2002, "No plate at lift", []), s)
    else
      let s1 := s.updStop stop_id { stop with has_plate := false, plate_id := none }
      if !s.stackKeys.contains lift then (none, s1)
      else
        let r := (s1.stacksMap lift).return_plate
        if !r.1 then (some (2003, "Stack full", []), s1.updStack lift r.2)
        else (some (0, "Success", []), s1.updStack lift r.2)

/-- StackLinkState.cmd_moveplate after argument parsing. -/
def SLState.moveplateCore (s : SLState) (source dest : Int) : Option CmdRet × SLState :=
  if !s.stopKeys.contains source || !s.stopKeys.contains dest then
    (some (1, "Stop out of range", []), s)
  else if s.errorFlags "movement_blocked" then (some (57, "Movement blocked", []), s)
  else if !(s.stops source).has_plate then (some (2004, "No plate at source", []), s)
  else if (pathList source dest).any (fun i =>
      i != source && s.stopKeys.contains i && (s.stops i).has_plate) then
    (some (57, "Movement blocked", []), s)
  else
    let pid := (s.stops source).plate_id
    let s1 := s.updStop source { s.stops source with has_plate := false, plate_id := none }
    let s2 := s1.updStop dest { s1.stops dest with has_plate := true, plate_id := pid }
    (some (0, s2.stops_status_string, []), s2)

/-- One iteration of the SHIFTPLATES loop body for stop index i, moving
a plate one stop in the direction given by stepDelta (+1 forward, -1
reverse) when the neighbour exists and is free.  The accumulator pairs
the state with the moved flag. -/
def shiftStep (stepDelta : Int) (acc : SLState × Bool) (i : Int) : SLState × Bool :=
  let s := acc.1
  if (s.stops i).has_plate then
    let next_idx := i + stepDelta
    if !s.stopKeys.contains next_idx || (s.stops next_idx).has_plate then acc
    else
      ((s.updStop i { s.stops i with has_plate := false }).updStop next_idx
        { s.stops next_idx with has_plate := true }, true)
  else acc

/-- The plate-shifting phase of cmd_shiftplates: iterate over the sorted
stop indices, reversed when shifting forward, and advance each movable
plate one stop.  Returns the shifted state and whether any plate moved. -/
def SLState.applyShift (s : SLState) (forward : Bool) : SLState × Bool :=
  let indices := sortAsc s.stopKeys
  if forward then (indices.reverse).foldl (shiftStep 1) (s, false)
  else indices.foldl (shiftStep (-1)) (s, false)

/-- StackLinkState.cmd_shiftplates after splitting off the track
argument: the direction keyword is lowercased and validated, the plate
moves are computed and applied, and only then is the movement_blocked
fault flag consulted. -/
def SLState.shiftplatesCore (s : SLState) (direction : String) : Option CmdRet × SLState :=
  let d := pyLower direction
  if !(["forward", "fwd", "f", "reverse", "rev", "r"].contains d) then
    (some (1, "Invalid direction", []), s)
  else
    let forward := ["forward", "fwd", "f"].contains d
    let r := s.applyShift forward
    if s.errorFlags "movement_blocked" then (some (57, "Movement blocked", []), r.1)
    else if !r.2 then (some (2005, "No plates moved", []), r.1)
    else (some (0, r.1.stops_status_string, []), r.1)

/-- StackLinkState.cmd_sendplate after argument parsing. -/
def SLState.sendplateCore (s : SLState) (stop : Int) : Option CmdRet × SLState :=
  if !s.stopKeys.contains stop then (some (1, "Stop out of range", []), s)
  else if !(s.stops stop).has_plate then (some (2004, "No plate at source", []), s)
  else (some (0, "Success", []),
    s.updStop stop { s.stops stop with has_plate := false, plate_id := none })

/-- StackLinkState.cmd_receiveplate after argument parsing.  A received
plate is marked present with no identifier. -/
def SLState.receiveplateCore (s : SLState) (stop : Int) : Option CmdRet × SLState :=
  if !s.stopKeys.contains stop then (some (1, "Stop out of range", []), s)
  else if s.errorFlags "lift_blocked" then (some (2001, "Cannot dispense; lift is blocked", []), s)
  else if (s.stops stop).has_plate then (some (2001, "Cannot dispense; lift is blocked", []), s)
  else (some (0, "Success", []),
    s.updStop stop { s.stops stop with has_plate := true, plate_id := none })

/-- The mutation block of a successful MOVEPLATE: clear the source stop
and set the destination stop to hold the moved plate id. -/
def moveApply (s : SLState) (source dest : Int) : SLState :=
  (s.updStop source { s.stops source with has_plate := false, plate_id := none }).updStop dest
    { (s.updStop source { s.stops source with has_plate := false, plate_id := none }).stops
        dest with has_plate := true, plate_id := (s.stops source).plate_id }

/-- StackLinkState.cmd_version. -/
def SLState.cmd_version (s : SLState) (args : String) : Option CmdRet × SLState :=
  let _ := args
  (some (0, s.version_info, []), s)

/-- StackLinkState.cmd_listcommands: filter the display command list by
a case-insensitive substring when one is supplied. -/
def SLState.cmd_listcommands (s : SLState) (args : String) : Option CmdRet × SLState :=
  let query := pyStrip args
  let filtered := if query ≠ "" then s.commands.filter (hasSubCI query) else s.commands
  (some (0, "Command list (" ++ toString filtered.length ++ " commands)", filtered), s)

/-- StackLinkState.cmd_getstopsensors: the track argument must parse as
an int, the sensor status string is returned. -/
def SLState.cmd_getstopsensors (s : SLState) (args : String) : Option CmdRet × SLState :=
  match pyInt? ((pySplit ',' args).headD "") with
  | none => (some (1, "Invalid parameters", []), s)
  | some _ => (some (0, s.stops_status_string, []), s)

/-- StackLinkState.cmd_hasplate. -/
def SLState.cmd_hasplate (s : SLState) (args : String) : Option CmdRet × SLState :=
  match parse2 args with
  | none => (some (1, "Invalid parameters", []), s)
  | some (_, stop_str) =>
    match pyInt? stop_str with
    | none => (some (1, "Invalid parameters", []), s)
    | some stop =>
      if !s.stopKeys.contains stop then (some (1, "Stop out of range", []), s)
      else (some (0, if (s.stops stop).has_plate then "Object" else "Empty", []), s)

/-- StackLinkState.cmd_getignorestop. -/
def SLState.cmd_getignorestop (s : SLState) (args : String) : Option CmdRet × SLState :=
  match parse2 args with
  | none => (some (1, "Invalid parameters", []), s)
  | some (_, stop_str) =>
    match pyInt? stop_str with
    | none => (some (1, "Invalid parameters", []), s)
    | some stop =>
      if !s.stopKeys.contains stop then (some (1, "Stop out of range", []), s)
      else (some (0, if (s.stops stop).ignored then "True" else "False", []), s)

/-- StackLinkState.cmd_getignorestops. -/
def SLState.cmd_getignorestops (s : SLState) (args : String) : Option CmdRet × SLState :=
  let _ := args
  (some (0, "Ignored stops: " ++ s.ignored_status_string, []), s)

/-- Python truthiness test used for boolean command arguments:
value.lower() in ("true", "1", "yes"). -/
def pyBoolArg (v : String) : Bool :=
  ["true", "1", "yes"].contains (pyLower v)

/-- StackLinkState.cmd_ignorestop. -/
def SLState.cmd_ignorestop (s : SLState) (args : String) : Option CmdRet × SLState :=
  match (pySplit ',' args).map pyStrip with
  | p0 :: p1 :: p2 :: _ =>
    match pyInt? p0, pyInt? p1 with
    | some _, some stop =>
      let ignore := pyBoolArg p2
      if !s.stopKeys.contains stop then (some (1, "Stop out of range", []), s)
      else (some (0, "Success", []),
        s.updStop stop { s.stops stop with ignored := ignore })
    | _, _ => (some (1, "Invalid parameters", []), s)
  | _ => (some (1, "Invalid parameters", []), s)

/-- StackLinkState.cmd_ignorestoprange: set the ignored flag on every
existing stop with index in [start, end]. -/
def SLState.cmd_ignorestoprange (s : SLState) (args : String) : Option CmdRet × SLState :=
  match (pySplit ',' args).map pyStrip with
  | p0 :: p1 :: p2 :: p3 :: _ =>
    match pyInt? p0, pyInt? p1, pyInt? p2 with
    | some _, some start, some stopEnd =>
      let ignore := pyBoolArg p3
      let s1 := (intRange start (stopEnd + 1)).foldl (fun acc i =>
        if acc.stopKeys.contains i then
          acc.updStop i { acc.stops i with ignored := ignore }
        else acc) s
      (some (0, "Success", []), s1)
    | _, _, _ => (some (1, "Invalid parameters", []), s)
  | _ => (some (1, "Invalid parameters", []), s)

/-- StackLinkState.cmd_ignoreallstops. -/
def SLState.cmd_ignoreallstops (s : SLState) (args : String) : Option CmdRet × SLState :=
  match (pySplit ',' args).map pyStrip with
  | p0 :: p1 :: _ =>
    match pyInt? p0 with
    | some _ =>
      let ignore := pyBoolArg p1
      let s1 := s.stopKeys.foldl (fun acc i =>
        acc.updStop i { acc.stops i with ignored := ignore }) s
      (some (0, "Success", []), s1)
    | none => (some (1, "Invalid parameters", []), s)
  | _ => (some (1, "Invalid parameters", []), s)

/-- StackLinkState.cmd_dispense: parse "track,lift" then run the core. -/
def SLState.cmd_dispense (s : SLState) (args : String) : Option CmdRet × SLState :=
  match parse2 args with
  | none => (some (1, "Invalid parameters", []), s)
  | some (_, lift_str) =>
    match pyInt? lift_str with
    | none => (some (1, "Invalid parameters", []), s)
    | some lift => s.dispenseCore lift

/-- StackLinkState.cmd_return: parse "track,lift" then run the core. -/
def SLState.cmd_return (s : SLState) (args : String) : Option CmdRet × SLState :=
  match parse2 args with
  | none => (some (1, "Invalid parameters", []), s)
  | some (_, lift_str) =>
    match pyInt? lift_str with
    | none => (some (1, "Invalid parameters", []), s)
    | some lift => s.returnCore lift

/-- StackLinkState.cmd_moveplate: parse three ints then run the core. -/
def SLState.cmd_moveplate (s : SLState) (args : String) : Option CmdRet × SLState :=
  match parse3Int args with
  | none => (some (1, "Invalid parameters", []), s)
  | some (_, source, dest) => s.moveplateCore source dest

/-- StackLinkState.cmd_shiftplates: split "track,direction", strip both
parts, then run the core on the direction keyword. -/
def SLState.cmd_shiftplates (s : SLState) (args : String) : Option CmdRet × SLState :=
  match parse2 args with
  | none => (some (1, "Invalid parameters", []), s)
  | some (_, dir_str) => s.shiftplatesCore (pyStrip dir_str)

/-- StackLinkState.cmd_sendplate. -/
def SLState.cmd_sendplate (s : SLState) (args : String) : Option CmdRet × SLState :=
  match parse2 args with
  | none => (some (1, "Invalid parameters", []), s)
  | some (_, stop_str) =>
    match pyInt? stop_str with
    | none => (some (1, "Invalid parameters", []), s)
    | some stop => s.sendplateCore stop

/-- StackLinkState.cmd_receiveplate. -/
def SLState.cmd_receiveplate (s : SLState) (args : String) : Option CmdRet × SLState :=
  match parse2 args with
  | none => (some (1, "Invalid parameters", []), s)
  | some (_, stop_str) =>
    match pyInt? stop_str with
    | none => (some (1, "Invalid parameters", []), s)
    | some stop => s.receiveplateCore stop

/-- StackLinkState.cmd_acknowledgesend. -/
def SLState.cmd_acknowledgesend (s : SLState) (args : String) : Option CmdRet × SLState :=
  let _ := args
  (some (0, "Success", []), s)

/-- StackLinkState.cmd_getnumtracks. -/
def SLState.cmd_getnumtracks (s : SLState) (args : String) : Option CmdRet × SLState :=
  let _ := args
  (some (0, "1", []), s)

/-- The command registry COMMAND_LIST from stacklink_commands.py: every
name the simulator is documented to recognise, in source order. -/
def COMMAND_LIST : List String :=
  [ "ClearCounter", "ClearCounters", "DumpInputState", "DumpOutputState",
    "DumpStops", "GetFileData", "GetFileList", "GetFileSize",
    "GetLoopCounter", "GetStackSensors", "GetStopControlStates",
    "GetStopOutputStates", "GetStopSensors", "IncrementCounter",
    "ListCounters", "ListLabLinxException", "ListMetrics",
    "ListRawMetrics", "MovePlateTest", "TestLift", "TestStops",
    "GetClockTime", "GetClockTimezone", "GetCpuInfo", "GetDiskInfo",
    "GetFirmwareUptime", "GetMemoryUsage", "GetOsInfo", "GetSystemUptime",
    "GetUptime", "ListClockTimezones", "ListComPorts", "SendTo",
    "SetClockTime", "SetClockTimezone", "Shutdown", "Terminal",
    "GetLogLevel", "GetLogPath", "ListBootLog", "ListLog", "ListLogSources",
    "LogCommands", "SetLogLevel",
    "ListIOs", "ReadAnalog", "ReadInp", "ReadInput", "WriteAnalog",
    "WriteOut", "WriteOutput",
    "CalculateMoveSpeed", "CalculateMoveTime", "EStop", "GetAutoHome",
    "GetPos", "GetPosition", "GetSpeed", "Halt", "Home", "Jog",
    "Move", "Move_Abs", "MoveAxes", "MoveAxis", "MoveFast",
    "SetAutoHome", "SetSpeed", "ShiftedMove", "Status",
    "Dispense", "Return",
    "Can", "DeleteSettingsFile", "GetSerialNumber", "GetSettings",
    "ListCommands", "ListParameters", "ListParams", "ListSettings", "Version",
    "AcknowledgeSend", "CompoundShift", "ConveyorOff", "ConveyorOn",
    "GetIgnoreStop", "GetIgnoreStops", "HasPlate", "IgnoreAllStops",
    "IgnoreStop", "IgnoreStopRange", "MovePlate", "ReceivePlate",
    "SendPlate", "ShiftPlates",
    "ClearMotionOverrides", "DeleteMotionProfile", "GetAxes",
    "GetAxisProfile", "GetDefaultMotion", "GetEStopAxes",
    "GetHomeMotion", "GetLimits", "GetMotionProfile", "GetPrimaryAxes",
    "GetSecondaryAxes", "GetStepsPerUnit", "GetSynchronizeMotion",
    "ListAxisProfiles", "ListDefaultMotions", "ListHomeMotions",
    "ListMotionProfiles", "SetAxisProfile", "SetDefaultMotion",
    "SetEStopAxes", "SetHomeMotion", "SetLimits", "SetMotionProfile",
    "SetSynchronizeMotion",
    "GetCurrentIP", "GetDefaultGateway", "GetDNS", "GetHostName",
    "GetIP", "GetIPAddress", "GetSubnetMask", "GetUseDHCP",
    "ListNetworkSettings", "SetDefaultGateway", "SetDNS", "SetHostName",
    "SetIP", "SetIPAddress", "SetSubnetMask", "SetUseDHCP",
    "AddCoordinates", "ClearPoints", "ConstrainPoint", "DeletePoint",
    "GetPoint", "Here", "ListPoints", "LoadPoint", "RemoveCoordinates",
    "Set", "SetShifted", "Shift",
    "AddStop", "GetStopFlags", "GetStopName", "GetStopPort", "InsertStop",
    "ListStops", "MoveStop", "RemoveAllStops", "RemoveStop",
    "RenameStop", "SetStopFlags", "SetStopName", "SetStopPort", "SwapStops",
    "GetAutoStop", "GetAutoStopTime", "GetHighSpeedDistance",
    "GetMoveTime", "GetNumTracks", "GetPartners", "GetShiftTimeout",
    "GetTrackSettings", "ListTrackSettings", "SendToPartner",
    "SetAutoStop", "SetAutoStopTime", "SetHighSpeedDistance",
    "SetMoveTime", "SetPartners", "SetShiftTimeout", "SetTrackSettings" ]

/-- Case-insensitive membership in the command registry, the test the
spec describes for the dispatch contract. -/
def registryHasCI (n : String) : Bool :=
  COMMAND_LIST.any (fun c => pyUpper c == pyUpper n)

/-- StackLinkState.handle_command: strip the line, echo it, split off
the first whitespace-delimited token as the command name, uppercase it,
and dispatch.

A name with a cmd_ method on StackLinkState runs that handler; the
exceptional (none) outcome of a handler is reported as 9999 Internal
error with whatever state the handler left behind.  Otherwise the code
tests name.upper() for membership in COMMAND_LIST; that branch, when
taken, would call the registry fallback handler with one argument
although those handlers take (state, args), so the TypeError is caught
and reported as 9999 Internal error.  A name that fails the membership
test is reported as 0001 Unrecognized command. -/
def SLState.handle_command (s : SLState) (raw : String) :
    (List String × String × List String) × SLState :=
  let command := pyStrip raw
  let echo := [command]
  if command = "" then ((echo, "0001 Empty command", []), s)
  else
    let firstTok : String := ⟨command.data.takeWhile (fun c => !c.isWhitespace)⟩
    let name := pyUpper firstTok
    let args := pyStrip ⟨command.data.drop firstTok.data.length⟩
    let run := fun (res : Option CmdRet × SLState) =>
      match res with
      | (some (code, msg, extra), s1) => ((echo, pad4 code ++ " " ++ msg, extra), s1)
      | (none, s1) => ((echo, "9999 Internal error", []), s1)
    match name with
    | "VERSION" => run (s.cmd_version args)
    | "LISTCOMMANDS" => run (s.cmd_listcommands args)
    | "GETSTOPSENSORS" => run (s.cmd_getstopsensors args)
    | "HASPLATE" => run (s.cmd_hasplate args)
    | "GETIGNORESTOP" => run (s.cmd_getignorestop args)
    | "GETIGNORESTOPS" => run (s.cmd_getignorestops args)
    | "IGNORESTOP" => run (s.cmd_ignorestop args)
    | "IGNORESTOPRANGE" => run (s.cmd_ignorestoprange args)
    | "IGNOREALLSTOPS" => run (s.cmd_ignoreallstops args)
    | "DISPENSE" => run (s.cmd_dispense args)
    | "RETURN" => run (s.cmd_return args)
    | "MOVEPLATE" => run (s.cmd_moveplate args)
    | "SHIFTPLATES" => run (s.cmd_shiftplates args)
    | "SENDPLATE" => run (s.cmd_sendplate args)
    | "RECEIVEPLATE" => run (s.cmd_receiveplate args)
    | "ACKNOWLEDGESEND" => run (s.cmd_acknowledgesend args)
    | "GETNUMTRACKS" => run (s.cmd_getnumtracks args)
    | _ =>
      if COMMAND_LIST.contains name then ((echo, "9999 Internal error", []), s)
      else ((echo, "0001 Unrecognized command", []), s)

/-- The scanned range as the spec words it for MOVEPLATE: every stop
strictly between source and dest in the direction of travel, with the
destination included and the source excluded. -/
def specScan (source dest i : Int) : Prop :=
  ((source < i ∧ i < dest) ∨ (dest < i ∧ i < source) ∨ i = dest) ∧ i ≠ source

instance (source dest i : Int) : Decidable (specScan source dest i) := by
  unfold specScan; infer_instance

/-- Boolean check that an optional plate identifier is a positive integer. -/
def plateIdOptOK : Option Int → Bool
  | some n => decide (0 < n)
  | none => false

/-- Boolean check that a stop's plate identifier is a positive integer. -/
def plateIdOK (t : TrackStop) : Bool :=
  plateIdOptOK t.plate_id

/-- The Stop invariant of the spec: plate_id is a non-null positive
integer exactly when has_plate is true, and null when it is false. -/
def StopInvariant (t : TrackStop) : Prop :=
  (t.has_plate = true → plateIdOK t = true) ∧ (t.has_plate = false → t.plate_id = none)

instance (t : TrackStop) : Decidable (StopInvariant t) := by
  unfold StopInvariant; infer_instance

/-- The Stop invariant at every stop, together with positivity of the
plate id counter (needed so freshly dispensed plates get positive ids). -/
def SLState.StopsOK (s : SLState) : Prop :=
  (∀ i, StopInvariant (s.stops i)) ∧ 0 < s.next_plate_id

/-- The Stack invariant of the spec: 0 ≤ count ≤ capacity. -/
def StackInvariant (st : Stack) : Prop :=
  0 ≤ st.count ∧ st.count ≤ st.capacity

@[simp] lemma stops_updStop (s : SLState) (i : Int) (t : TrackStop) (j : Int) :
    (s.updStop i t).stops j = if j = i then t else s.stops j := rfl

@[simp] lemma stopKeys_updStop (s : SLState) (i : Int) (t : TrackStop) :
    (s.updStop i t).stopKeys = s.stopKeys := rfl

@[simp] lemma stacksMap_updStop (s : SLState) (i : Int) (t : TrackStop) :
    (s.updStop i t).stacksMap = s.stacksMap := rfl

@[simp] lemma errorFlags_updStop (s : SLState) (i : Int) (t : TrackStop) :
    (s.updStop i t).errorFlags = s.errorFlags := rfl

@[simp] lemma liftKeys_updStop (s : SLState) (i : Int) (t : TrackStop) :
    (s.updStop i t).liftKeys = s.liftKeys := rfl

@[simp] lemma lift_map_updStop (s : SLState) (i : Int) (t : TrackStop) :
    (s.updStop i t).lift_map = s.lift_map := rfl

@[simp] lemma stackKeys_updStop (s : SLState) (i : Int) (t : TrackStop) :
    (s.updStop i t).stackKeys = s.stackKeys := rfl

@[simp] lemma next_plate_id_updStop (s : SLState) (i : Int) (t : TrackStop) :
    (s.updStop i t).next_plate_id = s.next_plate_id := rfl

@[simp] lemma stacksMap_updStack (s : SLState) (i : Int) (st : Stack) (j : Int) :
    (s.updStack i st).stacksMap j = if j = i then st else s.stacksMap j := rfl

@[simp] lemma stops_updStack (s : SLState) (i : Int) (st : Stack) :
    (s.updStack i st).stops = s.stops := rfl

@[simp] lemma stopKeys_updStack (s : SLState) (i : Int) (st : Stack) :
    (s.updStack i st).stopKeys = s.stopKeys := rfl

@[simp] lemma errorFlags_updStack (s : SLState) (i : Int) (st : Stack) :
    (s.updStack i st).errorFlags = s.errorFlags := rfl

@[simp] lemma liftKeys_updStack (s : SLState) (i : Int) (st : Stack) :
    (s.updStack i st).liftKeys = s.liftKeys := rfl

@[simp] lemma lift_map_updStack (s : SLState) (i : Int) (st : Stack) :
    (s.updStack i st).lift_map = s.lift_map := rfl

@[simp] lemma stackKeys_updStack (s : SLState) (i : Int) (st : Stack) :
    (s.updStack i st).stackKeys = s.stackKeys := rfl

@[simp] lemma next_plate_id_updStack (s : SLState) (i : Int) (st : Stack) :
    (s.updStack i st).next_plate_id = s.next_plate_id := rfl

lemma mem_intRange {a b i : Int} : i ∈ intRange a b ↔ a ≤ i ∧ i < b := by
  simp only [intRange, List.mem_map, List.mem_range]
  constructor
  · rintro ⟨k, hk, rfl⟩
    omega
  · intro h
    exact ⟨(i - a).toNat, by omega, by omega⟩

lemma mem_pathList {source dest i : Int} :
    i ∈ pathList source dest ↔ specScan source dest i := by
  unfold pathList specScan
  by_cases h : dest > source
  · rw [if_pos h, mem_intRange]; omega
  · rw [if_neg h, mem_intRange]; omega

lemma stopInvariant_cleared (t : TrackStop) :
    StopInvariant { t with has_plate := false, plate_id := none } := by
  constructor <;> intro h
  · simp at h
  · rfl

lemma stopInvariant_filled (t : TrackStop) (p : Option Int) (hp : plateIdOptOK p = true) :
    StopInvariant { t with has_plate := true, plate_id := p } := by
  constructor <;> intro h
  · simpa [plateIdOK] using hp
  · simp at h

lemma plateIdOptOK_pos (n : Int) (hn : 0 < n) : plateIdOptOK (some n) = true := by
  simp [plateIdOptOK, hn]

lemma allStops_updStop {s : SLState} {i : Int} {t : TrackStop}
    (h : ∀ j, StopInvariant (s.stops j)) (ht : StopInvariant t) :
    ∀ j, StopInvariant ((s.updStop i t).stops j) := by
  intro j
  rw [stops_updStop]
  split
  · exact ht
  · exact h j

lemma stopsOK_dispenseCore (s : SLState) (lift : Int) (h : s.StopsOK) :
    ((s.dispenseCore lift).2).StopsOK := by
  obtain ⟨hstops, hpid⟩ := h
  unfold SLState.dispenseCore
  dsimp only
  split_ifs with h1 h2 h3 h4 h5 h6 <;> try exact ⟨hstops, hpid⟩
  refine ⟨?_, ?_⟩
  · intro j
    rw [stops_updStop]
    split
    · exact stopInvariant_filled _ _ (plateIdOptOK_pos _ hpid)
    · exact hstops j
  · dsimp only
    simp only [next_plate_id_updStop, next_plate_id_updStack]
    omega

lemma stopsOK_returnCore (s : SLState) (lift : Int) (h : s.StopsOK) :
    ((s.returnCore lift).2).StopsOK := by
  obtain ⟨hstops, hpid⟩ := h
  unfold SLState.returnCore
  dsimp only
  split_ifs with h1 h2 h3 h4 h5 h6 h7 <;> try exact ⟨hstops, hpid⟩
  all_goals
    exact ⟨allStops_updStop hstops (stopInvariant_cleared _), hpid⟩

lemma stopsOK_moveplateCore (s : SLState) (source dest : Int) (h : s.StopsOK) :
    ((s.moveplateCore source dest).2).StopsOK := by
  obtain ⟨hstops, hpid⟩ := h
  unfold SLState.moveplateCore
  dsimp only
  split_ifs with h1 h2 h3 h4 <;> try exact ⟨hstops, hpid⟩
  have hsrc : (s.stops source).has_plate = true := by
    revert h3
    cases (s.stops source).has_plate <;> simp
  refine ⟨?_, hpid⟩
  apply allStops_updStop
  · exact allStops_updStop hstops (stopInvariant_cleared _)
  · exact stopInvariant_filled _ _ ((hstops source).1 hsrc)

lemma stopsOK_sendplateCore (s : SLState) (stop : Int) (h : s.StopsOK) :
    ((s.sendplateCore stop).2).StopsOK := by
  obtain ⟨hstops, hpid⟩ := h
  unfold SLState.sendplateCore
  dsimp only
  split_ifs with h1 h2 <;> try exact ⟨hstops, hpid⟩
  exact ⟨allStops_updStop hstops (stopInvariant_cleared _), hpid⟩

lemma stopsOK_reset (s : SLState) (sc : List (Int × Int)) (h : s.StopsOK) :
    ((s.reset_state sc)).StopsOK := by
  obtain ⟨hstops, hpid⟩ := h
  refine ⟨?_, ?_⟩
  · intro j
    show StopInvariant (if s.stopKeys.contains j then
      { s.stops j with has_plate := false, plate_id := none, ignored := false } else s.stops j)
    split
    · exact stopInvariant_cleared { s.stops j with ignored := false }
    · exact hstops j
  · norm_num [SLState.reset_state]

lemma stopsOK_set_stack_count (s : SLState) (i c : Int) (h : s.StopsOK) :
    (((s.set_stack_count i c)).2).StopsOK := by
  obtain ⟨hstops, hpid⟩ := h
  unfold SLState.set_stack_count
  split_ifs <;> exact ⟨hstops, hpid⟩

lemma stopsOK_set_error_flag (s : SLState) (n : String) (v : Bool) (h : s.StopsOK) :
    ((s.set_error_flag n v)).StopsOK := by
  obtain ⟨hstops, hpid⟩ := h
  unfold SLState.set_error_flag
  split_ifs <;> exact ⟨hstops, hpid⟩

lemma stopsOK_init (num_stops num_stacks : Int) : (initState num_stops num_stacks).StopsOK := by
  refine ⟨?_, ?_⟩
  · intro j
    constructor <;> intro h
    · simp [initState] at h
    · rfl
  · norm_num [initState]

/-- C2 counterexample: RECEIVEPLATE succeeds on empty stop 1 of the
fresh state and leaves it occupied with a null plate id, violating the
claimed invariant. -/
theorem c2_stop_invariant_counterexample :
    ((initState 8 2).receiveplateCore 1).1 = some (0, "Success", []) ∧
    ((((initState 8 2).receiveplateCore 1).2.stops 1).has_plate = true) ∧
    ¬ StopInvariant (((initState 8 2).receiveplateCore 1).2.stops 1) := by
  decide

/-- C2 amended: the Stop invariant holds initially and is preserved by
DISPENSE, RETURN, MOVEPLATE, SENDPLATE, reset_state, set_stack_count and
set_error_flag; RECEIVEPLATE, SHIFTPLATES and set_plate_presence do not
preserve it. -/
theorem c2_stop_invariant_amended :
    (∀ num_stops num_stacks : Int, (initState num_stops num_stacks).StopsOK) ∧
    (∀ (s : SLState) (lift : Int), s.StopsOK → ((s.dispenseCore lift).2).StopsOK) ∧
    (∀ (s : SLState) (lift : Int), s.StopsOK → ((s.returnCore lift).2).StopsOK) ∧
    (∀ (s : SLState) (source dest : Int), s.StopsOK → ((s.moveplateCore source dest).2).StopsOK) ∧
    (∀ (s : SLState) (stop : Int), s.StopsOK → ((s.sendplateCore stop).2).StopsOK) ∧
    (∀ (s : SLState) (sc : List (Int × Int)), s.StopsOK → (s.reset_state sc).StopsOK) ∧
    (∀ (s : SLState) (i c : Int), s.StopsOK → ((s.set_stack_count i c).2).StopsOK) ∧
    (∀ (s : SLState) (n : String) (v : Bool), s.StopsOK → (s.set_error_flag n v).StopsOK) :=
  ⟨stopsOK_init, stopsOK_dispenseCore, stopsOK_returnCore, stopsOK_moveplateCore,
   stopsOK_sendplateCore, stopsOK_reset, stopsOK_set_stack_count, stopsOK_set_error_flag⟩

/-- C2 witness: after DISPENSE on lift 1 of the fresh state, the plate
sitting at stop 3 carries a positive id. -/
theorem c2_stop_invariant_witness :
    plateIdOK (((initState 8 2).dispenseCore 1).2.stops 3) = true := by
  have h := c2_stop_invariant_amended
  have h2 := h.2.1 (initState 8 2) 1 (h.1 8 2)
  exact (h2.1 3).1 (by decide)

lemma stackInvariant_dispense (st : Stack) (h : StackInvariant st) :
    StackInvariant st.dispense.2 := by
  obtain ⟨h0, h1⟩ := h
  unfold Stack.dispense
  split_ifs with hc <;> constructor <;> simp <;> omega

lemma stackInvariant_return_plate (st : Stack) (h : StackInvariant st) :
    StackInvariant st.return_plate.2 := by
  obtain ⟨h0, h1⟩ := h
  unfold Stack.return_plate
  split_ifs with hc <;> constructor <;> simp <;> omega

lemma stackInvariant_clamped (cap c0 : Int) (hcap : 0 ≤ cap) :
    0 ≤ (if c0 < 0 then 0 else if c0 > cap then cap else c0) ∧
    (if c0 < 0 then 0 else if c0 > cap then cap else c0) ≤ cap := by
  split_ifs <;> omega

lemma stackInvariant_set_stack_count (s : SLState) (i c j : Int)
    (h : ∀ k, StackInvariant (s.stacksMap k)) (hcap : 0 ≤ (s.stacksMap i).capacity) :
    StackInvariant (((s.set_stack_count i c).2).stacksMap j) := by
  unfold SLState.set_stack_count
  dsimp only
  split_ifs with h1 h2 h3 <;> try exact h j
  all_goals
    dsimp only
  all_goals
    rw [stacksMap_updStack]
  all_goals
    split
  all_goals
    first
      | exact h j
      | (unfold StackInvariant; dsimp only; omega)

lemma stackInvariant_reset (s : SLState) (sc : List (Int × Int)) (j : Int)
    (h : ∀ k, StackInvariant (s.stacksMap k)) (hcap : ∀ k, 0 ≤ (s.stacksMap k).capacity) :
    StackInvariant ((s.reset_state sc).stacksMap j) := by
  have hj := hcap j
  show StackInvariant (if s.stackKeys.contains j then _ else s.stacksMap j)
  split
  · unfold StackInvariant
    dsimp only
    split_ifs <;> omega
  · exact h j

lemma stackInvariant_dispenseCore (s : SLState) (lift j : Int)
    (h : ∀ k, StackInvariant (s.stacksMap k)) :
    StackInvariant (((s.dispenseCore lift).2).stacksMap j) := by
  unfold SLState.dispenseCore
  dsimp only
  split_ifs with h1 h2 h3 h4 h5 h6 <;> try exact h j
  all_goals
    simp only [stacksMap_updStop]
  all_goals
    rw [stacksMap_updStack]
  all_goals
    split
  all_goals
    first
      | exact h j
      | exact stackInvariant_dispense _ (h lift)

lemma stackInvariant_returnCore (s : SLState) (lift j : Int)
    (h : ∀ k, StackInvariant (s.stacksMap k)) :
    StackInvariant (((s.returnCore lift).2).stacksMap j) := by
  unfold SLState.returnCore
  dsimp only
  split_ifs with h1 h2 h3 h4 h5 h6 h7 <;> try exact h j
  all_goals
    simp only [stacksMap_updStop]
  all_goals
    try rw [stacksMap_updStack]
  all_goals
    try split
  all_goals
    first
      | exact h j
      | exact stackInvariant_return_plate _ (h lift)

lemma initState_stackInvariant (n m : Int) :
    ∀ j, StackInvariant ((initState n m).stacksMap j) := by
  intro j
  unfold initState StackInvariant
  dsimp only
  split_ifs <;> omega

/-- C7: each stack count stays within [0, capacity]: the two Stack
operations preserve the bounds, set_stack_count and reset_state clamp
any supplied count into [0, capacity], and the DISPENSE and RETURN
command handlers preserve the bounds for every stack. -/
theorem c7_stack_count_bounds :
    (∀ st : Stack, StackInvariant st → StackInvariant st.dispense.2) ∧
    (∀ st : Stack, StackInvariant st → StackInvariant st.return_plate.2) ∧
    (∀ (s : SLState) (i c j : Int), (∀ k, StackInvariant (s.stacksMap k)) →
      0 ≤ (s.stacksMap i).capacity → StackInvariant (((s.set_stack_count i c).2).stacksMap j)) ∧
    (∀ (s : SLState) (sc : List (Int × Int)) (j : Int), (∀ k, StackInvariant (s.stacksMap k)) →
      (∀ k, 0 ≤ (s.stacksMap k).capacity) → StackInvariant ((s.reset_state sc).stacksMap j)) ∧
    (∀ (s : SLState) (lift j : Int), (∀ k, StackInvariant (s.stacksMap k)) →
      StackInvariant (((s.dispenseCore lift).2).stacksMap j)) ∧
    (∀ (s : SLState) (lift j : Int), (∀ k, StackInvariant (s.stacksMap k)) →
      StackInvariant (((s.returnCore lift).2).stacksMap j)) :=
  ⟨stackInvariant_dispense, stackInvariant_return_plate, stackInvariant_set_stack_count,
   stackInvariant_reset, stackInvariant_dispenseCore, stackInvariant_returnCore⟩

/-- C7 witness: setting stack 1 of the fresh state to 99 plates keeps
its count within [0, 30]. -/
theorem c7_stack_count_bounds_witness :
    StackInvariant ((((initState 8 2).set_stack_count 1 99).2).stacksMap 1) := by
  have h := c7_stack_count_bounds
  exact h.2.2.1 (initState 8 2) 1 99 1 (initState_stackInvariant 8 2) (by decide)

lemma dispenseCore_lift_blocked (s : SLState) (lift : Int)
    (h1 : s.liftKeys.contains lift = true) (h2 : s.stopKeys.contains (s.lift_map lift) = true)
    (hf : s.errorFlags "lift_blocked" = true) :
    s.dispenseCore lift = (some (2001, "Cannot dispense; lift is blocked", []), s) := by
  simp only [SLState.dispenseCore, h1, h2, hf, Bool.not_true, Bool.not_false,
    if_false, if_true, ite_true, ite_false]
  simp

lemma dispenseCore_dispense_failure (s : SLState) (lift : Int)
    (h1 : s.liftKeys.contains lift = true) (h2 : s.stopKeys.contains (s.lift_map lift) = true)
    (hf1 : s.errorFlags "lift_blocked" = false) (hf2 : s.errorFlags "dispense_failure" = true) :
    s.dispenseCore lift = (some (2000, "No object was dispensed", []), s) := by
  simp only [SLState.dispenseCore, h1, h2, hf1, hf2, Bool.not_true, Bool.not_false,
    if_false, if_true, ite_true, ite_false]
  simp

lemma set_error_flag_unknown (s : SLState) (name : String) (v : Bool)
    (h : s.errorFlagKeys.contains name = false) :
    s.set_error_flag name v = s := by
  simp only [SLState.set_error_flag, h]
  simp

/-- C3 counterexample: the per-lift flag name lift_blocked_1 is not a
key of the error-flag table, so setting it is a no-op and DISPENSE on
lift 1 succeeds instead of failing with 2001. -/
theorem c3_per_lift_fault_counterexample :
    (((initState 8 2).set_error_flag "lift_blocked_1" true).dispenseCore 1).1 =
      some (0, "Success", []) ∧
    ((initState 8 2).set_error_flag "lift_blocked_1" true).errorFlags "lift_blocked_1" = false := by
  decide

/-- C3 amended: the lift fault flags of the running DISPENSE handler are
the global lift_blocked and dispense_failure keys, not per-lift names:
when lift_blocked is set DISPENSE on every known lift fails with 2001,
when dispense_failure is set (and lift_blocked clear) it fails with 2000,
and set_error_flag ignores any name outside the four global keys. -/
theorem c3_lift_faults_are_global :
    (∀ (s : SLState) (lift : Int), s.liftKeys.contains lift = true →
      s.stopKeys.contains (s.lift_map lift) = true → s.errorFlags "lift_blocked" = true →
      s.dispenseCore lift = (some (2001, "Cannot dispense; lift is blocked", []), s)) ∧
    (∀ (s : SLState) (lift : Int), s.liftKeys.contains lift = true →
      s.stopKeys.contains (s.lift_map lift) = true → s.errorFlags "lift_blocked" = false →
      s.errorFlags "dispense_failure" = true →
      s.dispenseCore lift = (some (2000, "No object was dispensed", []), s)) ∧
    (∀ (s : SLState) (name : String) (v : Bool), s.errorFlagKeys.contains name = false →
      s.set_error_flag name v = s) :=
  ⟨dispenseCore_lift_blocked, dispenseCore_dispense_failure, set_error_flag_unknown⟩

/-- C3 witness: with the global lift_blocked flag set, DISPENSE on lift
2 fails with 2001 although the fault was not raised for that lift in
particular. -/
theorem c3_lift_faults_are_global_witness :
    ((initState 8 2).set_error_flag "lift_blocked" true).dispenseCore 2 =
      (some (2001, "Cannot dispense; lift is blocked", []),
        (initState 8 2).set_error_flag "lift_blocked" true) := by
  have h := c3_lift_faults_are_global
  exact h.1 ((initState 8 2).set_error_flag "lift_blocked" true) 2
    (by decide) (by decide) (by decide)

lemma moveplate_blocked_of_occupied (s : SLState) (source dest : Int)
    (hs : s.stopKeys.contains source = true) (hd : s.stopKeys.contains dest = true)
    (hp : (s.stops source).has_plate = true)
    (hocc : ∃ i, specScan source dest i ∧ s.stopKeys.contains i = true ∧
      (s.stops i).has_plate = true) :
    s.moveplateCore source dest = (some (57, "Movement blocked", []), s) := by
  by_cases hflag : s.errorFlags "movement_blocked" = true
  · simp only [SLState.moveplateCore, hs, hd, hflag, Bool.not_true, Bool.or_self,
      if_false, if_true, ite_true, ite_false]
    simp
  · have hflag2 : s.errorFlags "movement_blocked" = false := by
      revert hflag
      cases s.errorFlags "movement_blocked" <;> simp
    have hany : ((pathList source dest).any (fun i =>
        i != source && s.stopKeys.contains i && (s.stops i).has_plate)) = true := by
      rw [List.any_eq_true]
      obtain ⟨i, hispec, hikey, hip⟩ := hocc
      refine ⟨i, mem_pathList.mpr hispec, ?_⟩
      rw [Bool.and_eq_true, Bool.and_eq_true]
      exact ⟨⟨bne_iff_ne.mpr hispec.2, hikey⟩, hip⟩
    simp only [SLState.moveplateCore, hs, hd, hflag2, hp, hany, Bool.not_true, Bool.not_false,
      Bool.or_self, if_false, if_true, ite_true, ite_false]
    simp

/-- C4: the range MOVEPLATE scans is exactly every stop strictly between
source and dest in the direction of travel with the destination included
and the source excluded, and when any stop of that range is occupied the
command answers 57 Movement blocked with the device state unchanged. -/
theorem c4_moveplate_path_and_blocking :
    (∀ source dest i : Int, i ∈ pathList source dest ↔ specScan source dest i) ∧
    (∀ (s : SLState) (source dest : Int),
      s.stopKeys.contains source = true → s.stopKeys.contains dest = true →
      (s.stops source).has_plate = true →
      (∃ i, specScan source dest i ∧ s.stopKeys.contains i = true ∧
        (s.stops i).has_plate = true) →
      s.moveplateCore source dest = (some (57, "Movement blocked", []), s)) :=
  ⟨fun _ _ _ => mem_pathList, moveplate_blocked_of_occupied⟩

/-- C4 witness: with plates staged at stops 3 and 4, MOVEPLATE from 3 to
5 is blocked by the plate at 4 and the state is untouched. -/
theorem c4_moveplate_path_and_blocking_witness :
    ((((initState 8 2).set_plate_presence 3 true).2.set_plate_presence 4 true).2).moveplateCore 3 5 =
      (some (57, "Movement blocked", []),
        (((initState 8 2).set_plate_presence 3 true).2.set_plate_presence 4 true).2) := by
  have h := c4_moveplate_path_and_blocking
  exact h.2 ((((initState 8 2).set_plate_presence 3 true).2.set_plate_presence 4 true).2) 3 5
    (by decide) (by decide) (by decide) ⟨4, by decide, by decide, by decide⟩

lemma shiftplates_blocked_after_moving (s : SLState) (d : String)
    (hd : (["forward", "fwd", "f", "reverse", "rev", "r"].contains (pyLower d)) = true)
    (hf : s.errorFlags "movement_blocked" = true) :
    s.shiftplatesCore d = (some (57, "Movement blocked", []),
      (s.applyShift (["forward", "fwd", "f"].contains (pyLower d))).1) := by
  simp only [SLState.shiftplatesCore, hd, hf, Bool.not_true, if_false, if_true,
    ite_true, ite_false]
  simp

lemma moveplate_blocked_by_flag (s : SLState) (source dest : Int)
    (hs : s.stopKeys.contains source = true) (hd : s.stopKeys.contains dest = true)
    (hf : s.errorFlags "movement_blocked" = true) :
    s.moveplateCore source dest = (some (57, "Movement blocked", []), s) := by
  simp only [SLState.moveplateCore, hs, hd, hf, Bool.not_true, Bool.or_self,
    if_false, if_true, ite_true, ite_false]
  simp

/-- C5: with the movement_blocked fault set, SHIFTPLATES with a valid
direction first applies the computed plate moves and only then answers
57, while MOVEPLATE answers 57 with the state untouched; concretely, a
plate staged at stop 1 is really shifted to stop 2 before SHIFTPLATES
reports the fault. -/
theorem c5_fault_check_order :
    (∀ (s : SLState) (d : String),
      (["forward", "fwd", "f", "reverse", "rev", "r"].contains (pyLower d)) = true →
      s.errorFlags "movement_blocked" = true →
      s.shiftplatesCore d = (some (57, "Movement blocked", []),
        (s.applyShift (["forward", "fwd", "f"].contains (pyLower d))).1)) ∧
    (∀ (s : SLState) (source dest : Int),
      s.stopKeys.contains source = true → s.stopKeys.contains dest = true →
      s.errorFlags "movement_blocked" = true →
      s.moveplateCore source dest = (some (57, "Movement blocked", []), s)) ∧
    ((((((initState 8 2).set_plate_presence 1 true).2.set_error_flag
        "movement_blocked" true).shiftplatesCore "forward").1 =
          some (57, "Movement blocked", [])) ∧
      (((((initState 8 2).set_plate_presence 1 true).2.set_error_flag
        "movement_blocked" true).shiftplatesCore "forward").2.stops 1).has_plate = false ∧
      (((((initState 8 2).set_plate_presence 1 true).2.set_error_flag
        "movement_blocked" true).shiftplatesCore "forward").2.stops 2).has_plate = true) :=
  ⟨shiftplates_blocked_after_moving, moveplate_blocked_by_flag, by decide⟩

/-- C5 witness: with the fault set on the fresh state, MOVEPLATE from
stop 1 to stop 2 answers 57 and leaves the state unchanged. -/
theorem c5_fault_check_order_witness :
    ((initState 8 2).set_error_flag "movement_blocked" true).moveplateCore 1 2 =
      (some (57, "Movement blocked", []),
        (initState 8 2).set_error_flag "movement_blocked" true) := by
  have h := c5_fault_check_order
  exact h.2.1 ((initState 8 2).set_error_flag "movement_blocked" true) 1 2
    (by decide) (by decide) (by decide)

lemma cmd_listcommands_no_filter (s : SLState) :
    s.cmd_listcommands "" = (some (0, "Command list (" ++ toString s.commands.length ++
      " commands)", s.commands), s) := rfl

lemma cmd_listcommands_filter (s : SLState) (q : String)
    (hstrip : pyStrip q = q) (hq : q ≠ "") :
    s.cmd_listcommands q = (some (0, "Command list (" ++
        toString (s.commands.filter (hasSubCI q)).length ++ " commands)",
      s.commands.filter (hasSubCI q)), s) ∧
    (∀ c, c ∈ s.commands.filter (hasSubCI q) ↔ c ∈ s.commands ∧ hasSubCI q c = true) := by
  constructor
  · simp only [SLState.cmd_listcommands, hstrip, ne_eq, hq, not_false_iff, if_true, ite_true]
  · intro c
    exact List.mem_filter

/-- C6: LISTCOMMANDS with an empty filter returns the static display
registry (a duplicate-free list, so each name appears exactly once) and
the message counts its entries; with a non-empty filter it returns
exactly the registry entries containing the filter as a case-insensitive
substring, again with the matching count in the message. -/
theorem c6_listcommands :
    commandsInit.Nodup ∧
    (∀ num_stops num_stacks : Int, (initState num_stops num_stacks).commands = commandsInit) ∧
    (∀ s : SLState, s.cmd_listcommands "" = (some (0, "Command list (" ++
      toString s.commands.length ++ " commands)", s.commands), s)) ∧
    (∀ (s : SLState) (q : String), pyStrip q = q → q ≠ "" →
      s.cmd_listcommands q = (some (0, "Command list (" ++
          toString (s.commands.filter (hasSubCI q)).length ++ " commands)",
        s.commands.filter (hasSubCI q)), s) ∧
      (∀ c, c ∈ s.commands.filter (hasSubCI q) ↔ c ∈ s.commands ∧ hasSubCI q c = true)) :=
  ⟨by decide, fun _ _ => rfl, cmd_listcommands_no_filter, cmd_listcommands_filter⟩

/-- C6 witness: filtering the fresh state's registry by PLATE. -/
theorem c6_listcommands_witness :
    (initState 8 2).cmd_listcommands "PLATE" = (some (0, "Command list (" ++
        toString (((initState 8 2).commands.filter (hasSubCI "PLATE"))).length ++ " commands)",
      (initState 8 2).commands.filter (hasSubCI "PLATE")), initState 8 2) := by
  have h := c6_listcommands
  exact (h.2.2.2 (initState 8 2) "PLATE" (by decide) (by decide)).1

lemma dispense_return_roundtrip (s : SLState) (lift : Int)
    (h1 : s.liftKeys.contains lift = true)
    (h2 : s.stopKeys.contains (s.lift_map lift) = true)
    (h3 : s.stackKeys.contains lift = true)
    (hf1 : s.errorFlags "lift_blocked" = false)
    (hf2 : s.errorFlags "dispense_failure" = false)
    (hf3 : s.errorFlags "stack_full" = false)
    (hempty : (s.stops (s.lift_map lift)).has_plate = false)
    (hcap : (s.stacksMap lift).count ≤ (s.stacksMap lift).capacity) :
    ((((s.dispenseCore lift).2).returnCore lift).2.stacksMap lift).count =
      (s.stacksMap lift).count ∧
    ((((s.dispenseCore lift).2).returnCore lift).2.stops (s.lift_map lift)).has_plate = false := by
  have hm1 : lift ∈ s.liftKeys := by simpa using h1
  have hm2 : s.lift_map lift ∈ s.stopKeys := by simpa using h2
  have hm3 : lift ∈ s.stackKeys := by simpa using h3
  by_cases hc : (s.stacksMap lift).count > 0
  · have hdisp : (s.stacksMap lift).dispense =
        (true, { s.stacksMap lift with count := (s.stacksMap lift).count - 1 }) := by
      unfold Stack.dispense
      rw [if_pos hc]
    have hret : ({ s.stacksMap lift with count := (s.stacksMap lift).count - 1 }).return_plate =
        (true, { s.stacksMap lift with count := (s.stacksMap lift).count - 1 + 1 }) := by
      unfold Stack.return_plate
      dsimp only
      rw [if_pos (by omega)]
    simp [SLState.dispenseCore, SLState.returnCore, hm1, hm2, hm3, hf1, hf2, hf3,
      hempty, hdisp, hret]
  · have hdisp : (s.stacksMap lift).dispense = (false, s.stacksMap lift) := by
      unfold Stack.dispense
      rw [if_neg hc]
    simp [SLState.dispenseCore, SLState.returnCore, hm1, hm2, hm3, hf1, hf2, hf3,
      hempty, hdisp]

/-- C8 counterexample: with a plate manually staged on lift 1's stop,
DISPENSE fails with 2001 but the immediate RETURN still banks the
staged plate, so the stack count rises from 15 to 16 instead of being
restored. -/
theorem c8_dispense_return_counterexample :
    ((((initState 8 2).set_plate_presence 3 true).2.dispenseCore 1).1 =
      some (2001, "Cannot dispense; lift is blocked", [])) ∧
    ((((((initState 8 2).set_plate_presence 3 true).2.dispenseCore 1).2.returnCore 1).2.stacksMap
        1).count = 16) ∧
    ((((initState 8 2).set_plate_presence 3 true).2.stacksMap 1).count = 15) := by
  decide

/-- C8 amended: DISPENSE immediately followed by RETURN on the same
lift, with no fault flags active and the lift's stop initially empty
(and the stack within capacity), restores the stack count and leaves
the lift's stop empty. -/
theorem c8_dispense_return_roundtrip (s : SLState) (lift : Int)
    (h1 : s.liftKeys.contains lift = true)
    (h2 : s.stopKeys.contains (s.lift_map lift) = true)
    (h3 : s.stackKeys.contains lift = true)
    (hf1 : s.errorFlags "lift_blocked" = false)
    (hf2 : s.errorFlags "dispense_failure" = false)
    (hf3 : s.errorFlags "stack_full" = false)
    (hempty : (s.stops (s.lift_map lift)).has_plate = false)
    (hcap : (s.stacksMap lift).count ≤ (s.stacksMap lift).capacity) :
    ((((s.dispenseCore lift).2).returnCore lift).2.stacksMap lift).count =
      (s.stacksMap lift).count ∧
    ((((s.dispenseCore lift).2).returnCore lift).2.stops (s.lift_map lift)).has_plate = false :=
  dispense_return_roundtrip s lift h1 h2 h3 hf1 hf2 hf3 hempty hcap

/-- C8 witness: the round trip on lift 1 of the fresh state. -/
theorem c8_dispense_return_roundtrip_witness :
    (((((initState 8 2).dispenseCore 1).2).returnCore 1).2.stacksMap 1).count =
      ((initState 8 2).stacksMap 1).count ∧
    (((((initState 8 2).dispenseCore 1).2).returnCore 1).2.stops
      ((initState 8 2).lift_map 1)).has_plate = false :=
  c8_dispense_return_roundtrip (initState 8 2) 1 (by decide) (by decide) (by decide)
    (by decide) (by decide) (by decide) (by decide) (by decide)

/-- C10: RETURN on a known lift holding a plate, with no faults and the
stack already at capacity, answers 2003 Stack full although the plate
has already been removed from the stop (presence false, id null) while
the stack count is unchanged: the failure is not atomic. -/
theorem c10_return_stack_full_not_atomic (s : SLState) (lift : Int)
    (h1 : s.liftKeys.contains lift = true)
    (h2 : s.stopKeys.contains (s.lift_map lift) = true)
    (h3 : s.stackKeys.contains lift = true)
    (hf1 : s.errorFlags "lift_blocked" = false)
    (hf3 : s.errorFlags "stack_full" = false)
    (hplate : (s.stops (s.lift_map lift)).has_plate = true)
    (hfull : (s.stacksMap lift).count = (s.stacksMap lift).capacity) :
    (s.returnCore lift).1 = some (2003, "Stack full", []) ∧
    ((s.returnCore lift).2.stops (s.lift_map lift)).has_plate = false ∧
    ((s.returnCore lift).2.stops (s.lift_map lift)).plate_id = none ∧
    ((s.returnCore lift).2.stacksMap lift).count = (s.stacksMap lift).count := by
  have hm1 : lift ∈ s.liftKeys := by simpa using h1
  have hm2 : s.lift_map lift ∈ s.stopKeys := by simpa using h2
  have hm3 : lift ∈ s.stackKeys := by simpa using h3
  have hret : (s.stacksMap lift).return_plate = (false, s.stacksMap lift) := by
    unfold Stack.return_plate
    rw [if_neg (by omega)]
  simp [SLState.returnCore, hm1, hm2, hm3, hf1, hf3, hplate, hret]

/-- C10 witness: stack 1 filled to capacity 30 with a plate staged on
lift 1's stop. -/
theorem c10_return_stack_full_not_atomic_witness :
    ((((((initState 8 2).set_stack_count 1 30).2).set_plate_presence 3 true).2).returnCore 1).1 =
      some (2003, "Stack full", []) ∧
    (((((((initState 8 2).set_stack_count 1 30).2).set_plate_presence 3 true).2).returnCore
      1).2.stops ((((((initState 8 2).set_stack_count 1 30).2).set_plate_presence 3
        true).2).lift_map 1)).has_plate = false ∧
    (((((((initState 8 2).set_stack_count 1 30).2).set_plate_presence 3 true).2).returnCore
      1).2.stops ((((((initState 8 2).set_stack_count 1 30).2).set_plate_presence 3
        true).2).lift_map 1)).plate_id = none ∧
    (((((((initState 8 2).set_stack_count 1 30).2).set_plate_presence 3 true).2).returnCore
      1).2.stacksMap 1).count =
      ((((((initState 8 2).set_stack_count 1 30).2).set_plate_presence 3 true).2).stacksMap
        1).count :=
  c10_return_stack_full_not_atomic
    ((((initState 8 2).set_stack_count 1 30).2).set_plate_presence 3 true).2 1
    (by decide) (by decide) (by decide) (by decide) (by decide) (by decide) (by decide)

lemma moveplate_success (s : SLState) (source dest : Int)
    (hs : s.stopKeys.contains source = true) (hd : s.stopKeys.contains dest = true)
    (hflag : s.errorFlags "movement_blocked" = false)
    (hp : (s.stops source).has_plate = true)
    (hany : ((pathList source dest).any (fun i =>
      i != source && s.stopKeys.contains i && (s.stops i).has_plate)) = false) :
    s.moveplateCore source dest =
      (some (0, (moveApply s source dest).stops_status_string, []), moveApply s source dest) := by
  simp only [SLState.moveplateCore, moveApply, hs, hd, hflag, hp, hany, Bool.not_true,
    Bool.not_false, Bool.or_self, if_true, if_false, ite_true, ite_false]
  simp

/-- C9: MOVEPLATE from A to B and back, with no fault, a plate at A,
B empty and every stop strictly between them empty, restores the
original stop occupancy everywhere and returns the original plate id to
A. -/
theorem c9_moveplate_roundtrip (s : SLState) (A B : Int)
    (hA : s.stopKeys.contains A = true) (hB : s.stopKeys.contains B = true)
    (hAB : A ≠ B)
    (hflag : s.errorFlags "movement_blocked" = false)
    (hpA : (s.stops A).has_plate = true)
    (hpB : (s.stops B).has_plate = false)
    (hbet : ∀ i, ((A < i ∧ i < B) ∨ (B < i ∧ i < A)) → (s.stops i).has_plate = false) :
    (∃ m, (s.moveplateCore A B).1 = some (0, m, [])) ∧
    (∃ m, (((s.moveplateCore A B).2).moveplateCore B A).1 = some (0, m, [])) ∧
    (∀ j, ((((s.moveplateCore A B).2).moveplateCore B A).2.stops j).has_plate =
      (s.stops j).has_plate) ∧
    ((((s.moveplateCore A B).2).moveplateCore B A).2.stops A).plate_id =
      (s.stops A).plate_id := by
  have hBA : B ≠ A := Ne.symm hAB
  have hany1 : ((pathList A B).any (fun i =>
      i != A && s.stopKeys.contains i && (s.stops i).has_plate)) = false := by
    rw [List.any_eq_false]
    intro i hi
    obtain ⟨hcase, hne⟩ := mem_pathList.mp hi
    rcases hcase with h | h | h
    · simp [hbet i (Or.inl h)]
    · simp [hbet i (Or.inr h)]
    · subst h
      simp [hpB]
  have h1 := moveplate_success s A B hA hB hflag hpA hany1
  have hany2 : ((pathList B A).any (fun i =>
      i != B && (moveApply s A B).stopKeys.contains i &&
        ((moveApply s A B).stops i).has_plate)) = false := by
    rw [List.any_eq_false]
    intro i hi
    obtain ⟨hcase, hne⟩ := mem_pathList.mp hi
    rcases hcase with h | h | h
    · have hiB : ¬ i = B := by omega
      have hiA : ¬ i = A := by omega
      simp [moveApply, stops_updStop, hiA, hiB, hbet i (Or.inr h)]
    · have hiB : ¬ i = B := by omega
      have hiA : ¬ i = A := by omega
      simp [moveApply, stops_updStop, hiA, hiB, hbet i (Or.inl h)]
    · subst h
      simp [moveApply, stops_updStop, hAB]
  have hpB2 : ((moveApply s A B).stops B).has_plate = true := by
    simp [moveApply, stops_updStop]
  have h2 := moveplate_success (moveApply s A B) B A hB hA hflag hpB2 hany2
  rw [h1]
  dsimp only
  rw [h2]
  refine ⟨⟨_, rfl⟩, ⟨_, rfl⟩, ?_, ?_⟩
  · intro j
    by_cases hjA : j = A
    · subst hjA
      simp [moveApply, stops_updStop, hBA, hpA]
    · by_cases hjB : j = B
      · subst hjB
        simp [moveApply, stops_updStop, hBA, hpB]
      · simp [moveApply, stops_updStop, hjA, hjB]
  · simp [moveApply, stops_updStop, hBA, hAB]

/-- C9 witness: round trip between stops 3 and 5 with a plate staged at
stop 3 of the fresh state. -/
theorem c9_moveplate_roundtrip_witness :
    (((((((initState 8 2).set_plate_presence 3 true).2).moveplateCore 3 5).2).moveplateCore 5
        3).2.stops 5).has_plate =
      ((((initState 8 2).set_plate_presence 3 true).2).stops 5).has_plate ∧
    (((((((initState 8 2).set_plate_presence 3 true).2).moveplateCore 3 5).2).moveplateCore 5
        3).2.stops 3).plate_id =
      ((((initState 8 2).set_plate_presence 3 true).2).stops 3).plate_id := by
  have h := c9_moveplate_roundtrip (((initState 8 2).set_plate_presence 3 true).2) 3 5
    (by decide) (by decide) (by decide) (by decide) (by decide) (by decide)
    (fun i hi => by
      rcases hi with h4 | h4
      · have hi4 : i = 4 := by omega
        subst hi4
        decide
      · omega)
  exact ⟨h.2.2.1 5, h.2.2.2⟩

/-- C1: the registry fallback of handle_command tests the uppercased
command name for exact membership in the CamelCase COMMAND_LIST, so it
never matches: the registry-recognised command ClearCounter is answered
0001 Unrecognized command instead of 9999 No mock implementation, even
though it is in the registry up to case; every registry entry differs
from its own uppercasing, so the no-mock branch is unreachable.  A name
outside the registry is answered 0001 Unrecognized command as claimed. -/
theorem c1_registry_fallback_unreachable :
    ((initState 8 2).handle_command "ClearCounter").1 =
      (["ClearCounter"], "0001 Unrecognized command", []) ∧
    registryHasCI "ClearCounter" = true ∧
    COMMAND_LIST.contains (pyUpper "ClearCounter") = false ∧
    (COMMAND_LIST.all (fun c => pyUpper c != c)) = true ∧
    ((initState 8 2).handle_command "FOOBAR").1 =
      (["FOOBAR"], "0001 Unrecognized command", []) ∧
    registryHasCI "FOOBAR" = false := by
  decide
